import Mathlib

set_option maxRecDepth 100000

/-!
Verification of the two Open WebUI pipe adapters (`flowise.py` and `n8n.py`).

The adapters are shallowly embedded: Python values that flow through the
pipes (request bodies, parsed JSON documents, payload dicts, return values)
are modelled by the inductive type `Json` below; the two `Pipe.pipe`
methods become pure Lean functions from the request body and a model of the
HTTP response to a record of their observable outcome (returned value,
final request body, whether and what was POSTed, whether the HTTP response
was closed).  Machine-level details that the adapters never branch on
(header contents, debug printing, the UI event stream except for the n8n
throttle, wall-clock pacing delays) are not part of the model.
-/

/--
Model of the Python values the adapters handle: exactly the values that
`json.loads` can produce (plus the dict/list/str/int/bool/None literals the
code itself builds).  Floating point numbers never occur in the verified
paths and are not modelled; the parser below rejects them.
-/
inductive Json where
  | null
  | bool (b : Bool)
  | int (n : Int)
  | str (s : String)
  | arr (items : List Json)
  | obj (fields : List (String × Json))
deriving Repr, Inhabited

namespace Json

mutual

/-- Structural equality test on values. -/
def beqVal : Json → Json → Bool
  | null, null => true
  | bool x, bool y => x == y
  | int x, int y => x == y
  | str x, str y => x == y
  | arr x, arr y => beqItems x y
  | obj x, obj y => beqPairs x y
  | _, _ => false

/-- Structural equality test on item lists. -/
def beqItems : List Json → List Json → Bool
  | [], [] => true
  | x :: xs, y :: ys => beqVal x y && beqItems xs ys
  | _, _ => false

/-- Structural equality test on field lists. -/
def beqPairs : List (String × Json) → List (String × Json) → Bool
  | [], [] => true
  | (k, v) :: xs, (l, w) :: ys => k == l && beqVal v w && beqPairs xs ys
  | _, _ => false

end

mutual

/-- The equality test answers `true` exactly on equal values. -/
theorem beqVal_iff : ∀ a b : Json, beqVal a b = true ↔ a = b
  | null, b => by cases b <;> simp [beqVal]
  | bool x, b => by cases b <;> simp [beqVal]
  | int x, b => by cases b <;> simp [beqVal]
  | str x, b => by cases b <;> simp [beqVal]
  | arr x, b => by
      cases b <;> simp [beqVal]
      exact beqItems_iff x _
  | obj x, b => by
      cases b <;> simp [beqVal]
      exact beqPairs_iff x _

/-- The item-list equality test answers `true` exactly on equal lists. -/
theorem beqItems_iff : ∀ xs ys : List Json, beqItems xs ys = true ↔ xs = ys
  | [], ys => by cases ys <;> simp [beqItems]
  | x :: xs, [] => by simp [beqItems]
  | x :: xs, y :: ys => by
      simp [beqItems, beqVal_iff x y, beqItems_iff xs ys]

/-- The field-list equality test answers `true` exactly on equal lists. -/
theorem beqPairs_iff : ∀ xs ys : List (String × Json), beqPairs xs ys = true ↔ xs = ys
  | [], ys => by cases ys <;> simp [beqPairs]
  | x :: xs, [] => by simp [beqPairs]
  | (k, v) :: xs, (l, w) :: ys => by
      simp [beqPairs, beqVal_iff v w, beqPairs_iff xs ys, and_assoc]

end

instance : DecidableEq Json := fun a b => decidable_of_iff _ (beqVal_iff a b)

/-- Lookup in a field list, first match wins (the parser collapses duplicate
keys, mirroring Python dict insertion, so first match is dict lookup). -/
def lookup : List (String × Json) → String → Option Json
  | [], _ => none
  | (k, v) :: rest, key => if k = key then some v else lookup rest key

/-- Python `d[k] = v` on an insertion-ordered dict: replace the value in
place if the key exists, otherwise append the pair. -/
def setKey : List (String × Json) → String → Json → List (String × Json)
  | [], k, v => [(k, v)]
  | (k0, v0) :: rest, k, v =>
      if k0 = k then (k0, v) :: rest else (k0, v0) :: setKey rest k v

/-- Python `d.get(k, dflt)`. -/
def pyGet (fields : List (String × Json)) (k : String) (dflt : Json) : Json :=
  (lookup fields k).getD dflt

/-- Python truthiness of a value (`if x:`). -/
def pyTruthy : Json → Bool
  | null => false
  | bool b => b
  | int n => decide (n ≠ 0)
  | str s => decide (s.length ≠ 0)
  | arr items => !items.isEmpty
  | obj fields => !fields.isEmpty

/-- Python `isinstance(x, dict)`. -/
def isObj : Json → Bool
  | obj _ => true
  | _ => false

/-- Python `type(x).__name__`. -/
def pyType : Json → String
  | null => "NoneType"
  | bool _ => "bool"
  | int _ => "int"
  | str _ => "str"
  | arr _ => "list"
  | obj _ => "dict"

mutual

/-- Python `repr` of a value, for the tame strings the claims use (no
escaping inside string reprs is modelled; none of the verified inputs needs
it).  `\x27` is the single-quote character, `\x7b`/`\x7d` are braces. -/
def pyRepr : Json → String
  | null => "None"
  | bool true => "True"
  | bool false => "False"
  | int n => toString n
  | str s => "\x27" ++ s ++ "\x27"
  | arr items => "[" ++ pyReprList items ++ "]"
  | obj fields => "\x7b" ++ pyReprFields fields ++ "\x7d"

/-- Comma-joined reprs of list items. -/
def pyReprList : List Json → String
  | [] => ""
  | [j] => pyRepr j
  | j :: rest => pyRepr j ++ ", " ++ pyReprList rest

/-- Comma-joined `'key': repr` pairs of dict fields. -/
def pyReprFields : List (String × Json) → String
  | [] => ""
  | [(k, v)] => "\x27" ++ k ++ "\x27: " ++ pyRepr v
  | (k, v) :: rest => "\x27" ++ k ++ "\x27: " ++ pyRepr v ++ ", " ++ pyReprFields rest

end

/-- Python `str(x)`: the string itself for a `str`, else its repr
(`str` and `repr` agree on dicts, lists, numbers, booleans and `None`). -/
def pyStr : Json → String
  | str s => s
  | j => pyRepr j

end Json

/-- Whether a character counts as whitespace for Python `str.strip`. -/
def pyIsWs (c : Char) : Bool :=
  c = ' ' || c = '\t' || c = '\n' || c = '\r' || c = '\x0b' || c = '\x0c'

/-- Python `s.strip()`: drop whitespace from both ends. -/
def pyStrip (s : String) : String :=
  String.mk (((s.toList.dropWhile pyIsWs).reverse.dropWhile pyIsWs).reverse)

/-- Python `s.startswith(p)`. -/
def pyStartsWith (s p : String) : Bool :=
  p.toList.isPrefixOf s.toList

/-- Check whether one character list occurs contiguously inside another. -/
def charsInfix (needle : List Char) : List Char → Bool
  | [] => needle.isEmpty
  | c :: cs => needle.isPrefixOf (c :: cs) || charsInfix needle cs

/-- Substring test: Python `needle in hay`. -/
def strContains (hay needle : String) : Bool :=
  charsInfix needle.toList hay.toList

/-! ### A parser for the JSON subset the claims exercise

`Json.parse` models `json.loads` on the documents that appear in the
claims: objects, arrays, strings with the common escapes, integers, and
the three literals.  Floats are rejected (never needed), matching the rest
of the model. -/

namespace Json

/-- Skip JSON whitespace. -/
def skipWs : List Char → List Char
  | c :: cs => if c = ' ' ∨ c = '\t' ∨ c = '\n' ∨ c = '\r' then skipWs cs else c :: cs
  | [] => []

/-- Parse the remainder of a string literal (after the opening quote),
returning the decoded characters and the rest of the input. -/
def parseStringChars : List Char → Option (List Char × List Char)
  | [] => none
  | '\\' :: e :: cs =>
      (match e with
       | '"' => (parseStringChars cs).map (fun p => ('"' :: p.1, p.2))
       | '\\' => (parseStringChars cs).map (fun p => ('\\' :: p.1, p.2))
       | '/' => (parseStringChars cs).map (fun p => ('/' :: p.1, p.2))
       | 'n' => (parseStringChars cs).map (fun p => ('\n' :: p.1, p.2))
       | 't' => (parseStringChars cs).map (fun p => ('\t' :: p.1, p.2))
       | 'r' => (parseStringChars cs).map (fun p => ('\r' :: p.1, p.2))
       | 'b' => (parseStringChars cs).map (fun p => ('\x08' :: p.1, p.2))
       | 'f' => (parseStringChars cs).map (fun p => ('\x0c' :: p.1, p.2))
       | _ => none)
  | '"' :: cs => some ([], cs)
  | c :: cs => (parseStringChars cs).map (fun p => (c :: p.1, p.2))

/-- Take a maximal run of decimal digits. -/
def takeDigits : List Char → List Char × List Char
  | c :: cs =>
      if c.isDigit then
        let p := takeDigits cs
        (c :: p.1, p.2)
      else ([], c :: cs)
  | [] => ([], [])

/-- Decimal value of a digit run. -/
def digitsToNat : List Char → Nat
  | [] => 0
  | ds => ds.foldl (fun acc c => acc * 10 + (c.toNat - '0'.toNat)) 0

/-- Parse an integer literal starting at the given characters; fails when
no digit is present or when the number continues as a float. -/
def parseIntLit (neg : Bool) (cs : List Char) : Option (Json × List Char) :=
  let p := takeDigits cs
  if p.1.isEmpty then none
  else
    match p.2 with
    | '.' :: _ => none
    | 'e' :: _ => none
    | 'E' :: _ => none
    | rest =>
        let n : Int := Int.ofNat (digitsToNat p.1)
        some (Json.int (if neg then -n else n), rest)

mutual

/-- Parse one JSON value; `fuel` bounds the recursion (each unit of fuel
spent corresponds to at least one consumed character). -/
def parseVal : Nat → List Char → Option (Json × List Char)
  | 0, _ => none
  | Nat.succ fuel, cs0 =>
      match skipWs cs0 with
      | [] => none
      | c :: cs =>
          if c = '"' then
            (parseStringChars cs).map (fun p => (Json.str (String.mk p.1), p.2))
          else if c = '\x7b' then
            match skipWs cs with
            | '\x7d' :: rest => some (Json.obj [], rest)
            | cs2 => parseMembers fuel cs2 []
          else if c = '[' then
            match skipWs cs with
            | ']' :: rest => some (Json.arr [], rest)
            | cs2 => parseItems fuel cs2 []
          else if c = '-' then parseIntLit true cs
          else if c.isDigit then parseIntLit false (c :: cs)
          else
            match c :: cs with
            | 't' :: 'r' :: 'u' :: 'e' :: rest => some (Json.bool true, rest)
            | 'f' :: 'a' :: 'l' :: 's' :: 'e' :: rest => some (Json.bool false, rest)
            | 'n' :: 'u' :: 'l' :: 'l' :: rest => some (Json.null, rest)
            | _ => none

/-- Parse the members of an object (after the opening brace, first key
next); duplicate keys overwrite, as in Python. -/
def parseMembers : Nat → List Char → List (String × Json) → Option (Json × List Char)
  | 0, _, _ => none
  | Nat.succ fuel, cs0, acc =>
      match skipWs cs0 with
      | '"' :: cs =>
          match parseStringChars cs with
          | none => none
          | some (k, cs2) =>
              match skipWs cs2 with
              | ':' :: cs3 =>
                  match parseVal fuel cs3 with
                  | none => none
                  | some (v, cs4) =>
                      let acc2 := setKey acc (String.mk k) v
                      match skipWs cs4 with
                      | ',' :: cs5 => parseMembers fuel cs5 acc2
                      | '\x7d' :: cs5 => some (Json.obj acc2, cs5)
                      | _ => none
              | _ => none
      | _ => none

/-- Parse the items of an array (after the opening bracket, first item
next). -/
def parseItems : Nat → List Char → List Json → Option (Json × List Char)
  | 0, _, _ => none
  | Nat.succ fuel, cs0, acc =>
      match parseVal fuel cs0 with
      | none => none
      | some (v, cs1) =>
          match skipWs cs1 with
          | ',' :: cs2 => parseItems fuel cs2 (acc ++ [v])
          | ']' :: cs2 => some (Json.arr (acc ++ [v]), cs2)
          | _ => none

end

/-- Model of `json.loads`: parse a whole document, requiring only
whitespace to remain. -/
def parse (s : String) : Option Json :=
  match parseVal (s.length + 1) s.toList with
  | some (j, rest) => if (skipWs rest).isEmpty then some j else none
  | none => none

end Json

example : Json.parse "\x7b\"event\":\"token\",\"data\":\"A\"\x7d" =
    some (Json.obj [("event", Json.str "token"), ("data", Json.str "A")]) := by decide

example : Json.parse "[\x7b\"output\": \"ok\"\x7d]" =
    some (Json.arr [Json.obj [("output", Json.str "ok")]]) := by decide

example : Json.parse "[]" = some (Json.arr []) := by decide

example : Json.parse "not json" = none := by decide

example : Json.pyStr (Json.obj [("output", Json.str "x")]) =
    "\x7b\x27output\x27: \x27x\x27\x7d" := by decide

/-! ### Shared adapter helpers

Both pipes return `{"error": msg}` dictionaries on failure and append
assistant messages with `body.setdefault("messages", []).append({...})`. -/

/-- The `{"error": msg}` dictionary both pipes return on failure. -/
def errDict (msg : String) : Json :=
  Json.obj [("error", Json.str msg)]

/-- Model of `body.setdefault("messages", []).append({"role": "assistant",
"content": content})` on a dict body whose `messages` value, if present, is
a list (the only situation in which the statement completes in Python). -/
def appendAssistant (body : Json) (content : Json) : Json :=
  match body with
  | Json.obj fields =>
      let entry := Json.obj [("role", Json.str "assistant"), ("content", content)]
      match Json.lookup fields "messages" with
      | some (Json.arr ms) =>
          Json.obj (Json.setKey fields "messages" (Json.arr (ms ++ [entry])))
      | some _ => body
      | none => Json.obj (Json.setKey fields "messages" (Json.arr [entry]))
  | _ => body

/-- The messages list of a dict body, when it is a list. -/
def msgList (body : Json) : Option (List Json) :=
  match body with
  | Json.obj fields =>
      match Json.lookup fields "messages" with
      | some (Json.arr ms) => some ms
      | _ => none
  | _ => none

/-- Model of `messages[-1]["content"]`: `some` of the content when
`messages` is a non-empty list whose last element is a dict carrying a
`content` key; `none` marks every input on which the Python expression
raises (`TypeError`, `KeyError` or `IndexError`). -/
def lastContent (messages : Json) : Option Json :=
  match messages with
  | Json.arr ms =>
      match ms.getLast? with
      | some (Json.obj f) => Json.lookup f "content"
      | _ => none
  | _ => none

/-- Python `x[:50]` (and any slice) succeeds on strings and lists and
raises `TypeError` on the other JSON-representable values. -/
def sliceable : Json → Bool
  | Json.str _ => true
  | Json.arr _ => true
  | _ => false

namespace Flowise

/-!
Model of `src/flowise.py`.  The valve fields that the modelled behaviour
never branches on (URL, API key, timeouts, debug flag, pacing delay, the
unused `stream_event_name`) are omitted; only `enable_streaming` steers the
control flow observed by the claims.
-/

/-- The configuration switch that steers the Flowise pipe's control flow. -/
structure Valves where
  enable_streaming : Bool
deriving Repr, DecidableEq

/-- The parts of the `requests` response object that the Flowise pipe
reads: `status_code`, the `Content-Type` header (empty when absent), the
decoded body text, and the decoded lines `iter_lines` yields. -/
structure HttpResp where
  status_code : Nat
  content_type : String
  text : String
  lines : List String
deriving Repr, DecidableEq

/-- Observable outcome of one `Pipe.pipe` call: the returned value, the
request body after any in-place mutation, whether the POST was issued and
with which JSON payload, and whether `response.close()` ran (directly or
through a `with`/`finally`) before the return. -/
structure Outcome where
  ret : Json
  body : Json
  posted : Bool
  payload : Option (List (String × Json))
  closed : Bool
deriving Repr, DecidableEq

/-- Result of the manual SSE line loop: `done` when the loop ran to
completion or broke on an `end` event, `aborted` when a `data:` line parsed
to a non-dict (Python then raises `AttributeError` on `.get`, landing in
the streaming `except` block); both carry the accumulated content. -/
inductive StreamOut where
  | done (content : String)
  | aborted (content : String) (typeName : String)
deriving Repr, DecidableEq

/-- The manual SSE parsing loop (`for line in response.iter_lines()`):
empty lines are skipped, non-`data:` lines are ignored, `data:` lines are
stripped and JSON-parsed; a parse failure skips the line, a `token` event
with string data accumulates, an `end` event breaks out of the loop, and
any other event is ignored. -/
def processLines : List String → String → StreamOut
  | [], acc => .done acc
  | line :: rest, acc =>
      if line = "" then processLines rest acc
      else if pyStartsWith line "data:" then
        match Json.parse (pyStrip (line.drop 5)) with
        | none => processLines rest acc
        | some (Json.obj fields) =>
            if Json.lookup fields "event" = some (Json.str "token") then
              match Json.lookup fields "data" with
              | some (Json.str t) => processLines rest (acc ++ t)
              | _ => processLines rest acc
            else if Json.lookup fields "event" = some (Json.str "end") then
              .done acc
            else processLines rest acc
        | some j => .aborted acc (Json.pyType j)
      else processLines rest acc

/-- Error text of the validation failure for a non-dict body. -/
def notDictErr : String := "Request body is not a valid dictionary."

/-- Error text of the validation failure for an empty messages list. -/
def noMessagesErr : String :=
  "Error: No messages found in the request body to process."

/-- Stand-in for the generic-handler message
`An unexpected error occurred: ...` produced when extracting
`messages[-1]["content"]` (or slicing it for the status line) raises; the
interpolated Python exception text is abstracted. -/
def unexpectedErr : String :=
  "An unexpected error occurred: (failed to extract the user message). Check pipe code/Flowise."

/-- The message of the final error dictionary when no content and no
specific error were recorded. -/
def unknownErr : String :=
  "Unknown error: No content received and no specific error reported. Check Flowise logs."

/-- The `Flowise HTTP error: ...` message built when `raise_for_status`
raises. -/
def httpErrMsg (status : Nat) (text : String) : String :=
  "Flowise HTTP error: HTTP Error " ++ toString status ++ ": " ++ text.take 200 ++ "..."

/-- The `SSE streaming failed: ...` message for the `AttributeError`
raised when a `data:` line parses to a non-dict value. -/
def sseFailMsg (typeName : String) : String :=
  "SSE streaming failed: AttributeError - \x27" ++ typeName ++
    "\x27 object has no attribute \x27get\x27"

/-- Python `a or b`. -/
def pyOr (a b : Json) : Json :=
  if Json.pyTruthy a then a else b

/-- The field chain of the streaming-requested fallback (content type not
an event stream): `get("text") or get("answer") or get("response") or
str(doc)` on a dict document, `str(doc)` otherwise. -/
def extractFallback (d : Json) : Json :=
  match d with
  | Json.obj f =>
      pyOr (Json.pyGet f "text" Json.null)
        (pyOr (Json.pyGet f "answer" Json.null)
          (pyOr (Json.pyGet f "response" Json.null) (Json.str (Json.pyStr d))))
  | _ => Json.str (Json.pyStr d)

/-- The field chain of the non-streaming branch: `get("text") or
get("answer") or get("response") or get("output") or str(doc)` on a dict
document, `str(doc)` otherwise. -/
def extractPlain (d : Json) : Json :=
  match d with
  | Json.obj f =>
      pyOr (Json.pyGet f "text" Json.null)
        (pyOr (Json.pyGet f "answer" Json.null)
          (pyOr (Json.pyGet f "response" Json.null)
            (pyOr (Json.pyGet f "output" Json.null) (Json.str (Json.pyStr d)))))
  | _ => Json.str (Json.pyStr d)

/-- Content determination of the post-status phase: the streaming branch
(manual SSE loop, or the non-stream fallback when the content type is not
an event stream) or the non-streaming branch.  Returns the recorded error
message, if any, and the value `full_response_content` ends up holding. -/
def contentStep (v : Valves) (resp : HttpResp) : Option String × Json :=
  if v.enable_streaming then
    if strContains resp.content_type "text/event-stream" then
      match processLines resp.lines "" with
      | .done c => (none, Json.str c)
      | .aborted c tn => (some (sseFailMsg tn), Json.str c)
    else
      match Json.parse resp.text with
      | some d => (none, extractFallback d)
      | none => (none, Json.str resp.text)
  else
    match Json.parse resp.text with
    | some d => (none, extractPlain d)
    | none => (none, Json.str resp.text)

/-- Body processing once the POST has returned: classify the status
(`raise_for_status` raises on 4xx/5xx and the handler returns the error
dict without closing the response), then run `contentStep` (whose branches
all close the response), and finally either append and return truthy
content or return the error dictionary. -/
def afterPost (v : Valves) (body : Json) (payload : List (String × Json))
    (resp : HttpResp) : Outcome :=
  if 400 ≤ resp.status_code ∧ resp.status_code < 600 then
    { ret := errDict (httpErrMsg resp.status_code resp.text), body := body,
      posted := true, payload := some payload, closed := false }
  else if Json.pyTruthy (contentStep v resp).2 then
    { ret := (contentStep v resp).2,
      body := appendAssistant body (contentStep v resp).2,
      posted := true, payload := some payload, closed := true }
  else
    { ret := errDict (((contentStep v resp).1).getD unknownErr), body := body,
      posted := true, payload := some payload, closed := true }

/-- The JSON payload of the POST: `{"question": q}`, plus `"streaming":
true` when streaming is enabled. -/
def mkPayload (v : Valves) (q : Json) : List (String × Json) :=
  if v.enable_streaming then
    Json.setKey [("question", q)] "streaming" (Json.bool true)
  else [("question", q)]

/-- Model of `Pipe.pipe` in `src/flowise.py`: validate the body, extract
the last message's content, build the payload, POST, and process the
response via `afterPost`. -/
def pipe (v : Valves) (body : Json) (resp : HttpResp) : Outcome :=
  match body with
  | Json.obj bodyFields =>
      if Json.pyTruthy (Json.pyGet bodyFields "messages" (Json.arr [])) then
        match lastContent (Json.pyGet bodyFields "messages" (Json.arr [])) with
        | some q =>
            if sliceable q then
              afterPost v body (mkPayload v q) resp
            else
              { ret := errDict unexpectedErr, body := body, posted := false,
                payload := none, closed := false }
        | none =>
            { ret := errDict unexpectedErr, body := body, posted := false,
              payload := none, closed := false }
      else
        { ret := errDict noMessagesErr, body := body, posted := false,
          payload := none, closed := false }
  | _ =>
      { ret := errDict notDictErr, body := body, posted := false,
        payload := none, closed := false }

end Flowise

namespace N8n

/-!
Model of `src/n8n.py`.  The bearer token and URL affect only headers and
destination; `input_field` and `response_field` steer the modelled
behaviour of `pipe`, while `emit_interval` and `enable_status_indicator`
steer `emit_status`.  The chat id that `extract_event_info` digs out of
the emitter's closure is passed to the model as an explicit optional
argument.
-/

/-- The configuration fields that steer the n8n pipe's control flow. -/
structure Valves where
  input_field : String
  response_field : String
deriving Repr, DecidableEq

/-- The parts of the `requests` response object that the n8n pipe reads. -/
structure HttpResp where
  status_code : Nat
  text : String
deriving Repr, DecidableEq

/-- Observable outcome of one returning `Pipe.pipe` call: returned value,
mutated request body, number of POSTs issued and the payload of the one
POST when issued. -/
structure Outcome where
  ret : Json
  body : Json
  postCount : Nat
  payload : Option (List (String × Json))
deriving Repr, DecidableEq

/-- Result of one `Pipe.pipe` call: a returned outcome, or an exception
escaping the method (parts of the n8n pipe run outside any `try`). -/
inductive Result where
  | ok (o : Outcome)
  | raise (info : String)
deriving Repr, DecidableEq

/-- Error text for a string body that is not valid JSON. -/
def badJsonBodyErr : String := "Invalid JSON string received in \x27body\x27."

/-- Error text for a string body whose JSON is not a dict. -/
def nonDictJsonErr (j : Json) : String :=
  "Expected \x27body\x27 to be a dictionary but got " ++ Json.pyType j ++ "."

/-- Error text of the validation failure for a non-dict body. -/
def notDictErr : String := "Request body is not a valid dictionary."

/-- Error text of the validation failure for an empty messages list. -/
def noMessagesErr : String :=
  "Error: No messages found in the request body to process."

/-- The error message for a 2xx response whose body is not valid JSON. -/
def badRespJsonMsg (status : Nat) (text : String) : String :=
  "N8N workflow responded successfully (status " ++ toString status ++
    ") but the response body is not valid JSON. Response snippet: " ++
    text.take 200 ++ "..."

/-- The error message for an empty-list 2xx response (`str` of the
`ValueError` the code raises and catches). -/
def emptyListMsg : String :=
  "Error processing N8N response: Received an empty list from N8N response."

/-- The error message for a 2xx response missing the configured response
field; `keysRepr` is what Python prints for `available_keys`. -/
def missingFieldMsg (status : Nat) (field : String) (keysRepr : String)
    (text : String) : String :=
  "N8N workflow responded successfully (status " ++ toString status ++
    ") but missing expected response field \x27" ++ field ++
    "\x27. Available keys: " ++ keysRepr ++ ". Response snippet: " ++
    text.take 150 ++ "..."

/-- The error message for a 4xx response. -/
def clientErrMsg (status : Nat) (text : String) : String :=
  "Client error: Received status code " ++ toString status ++
    " from N8N. This error (" ++ toString status ++
    ") is typically not transient. Response: " ++ text

/-- The error message for any other non-2xx response. -/
def unexpectedStatusMsg (status : Nat) (text : String) : String :=
  "Unexpected HTTP error: Received status code " ++ toString status ++
    " from N8N. Response: " ++ text

/-- The fallback final error message when nothing more specific was
recorded. -/
def unknownErr : String := "An unknown error occurred during the N8N request."

/-- Model of the system-prompt scan
`next((msg["content"] for msg in body.get("messages", []) if
msg.get("role") == "system"), None)`: `some none` when no system message
occurs, `some (some c)` for the first system message's content, and `none`
when the scan raises (a non-dict element reached, or a system message
without `content`). -/
def findSystem : List Json → Option (Option Json)
  | [] => some none
  | Json.obj f :: rest =>
      if Json.lookup f "role" = some (Json.str "system") then
        match Json.lookup f "content" with
        | some c => some (some c)
        | none => none
      else findSystem rest
  | _ :: _ => none

/-- The item list of a JSON array (callers establish the array shape). -/
def asList : Json → List Json
  | Json.arr items => items
  | _ => []

/-- What Python prints for `available_keys` when the document is a dict:
the repr of `list(d.keys())`. -/
def keysRepr (df : List (String × Json)) : String :=
  Json.pyRepr (Json.arr ((df.map Prod.fst).map Json.str))

/-- Field extraction from the (possibly list-unwrapped) 2xx response
document: the configured field's value when the document is a dict
carrying it, else the missing-field error with the available keys (or
`N/A` for a non-dict). -/
def fieldExtract (v : Valves) (resp : HttpResp) (d : Json) : Json × Option String :=
  match d with
  | Json.obj df =>
      match Json.lookup df v.response_field with
      | some val => (val, none)
      | none =>
          (Json.null, some (missingFieldMsg resp.status_code v.response_field
            (keysRepr df) resp.text))
  | _ =>
      (Json.null, some (missingFieldMsg resp.status_code v.response_field
        "N/A" resp.text))

/-- Whether a system-prompt scan result makes Python's `if system_prompt:`
guard fire. -/
def sysTruthy : Option Json → Bool
  | some sp => Json.pyTruthy sp
  | none => false

/-- Response handling of the n8n pipe (lines 217-292 of `src/n8n.py`):
returns the extracted content (initialised to `None`, which JSON `null`
also maps to, exactly as in Python) together with the recorded error
message, if any. -/
def handleResponse (v : Valves) (resp : HttpResp) : Json × Option String :=
  if 200 ≤ resp.status_code ∧ resp.status_code < 300 then
    match Json.parse resp.text with
    | none => (Json.null, some (badRespJsonMsg resp.status_code resp.text))
    | some (Json.arr []) => (Json.null, some emptyListMsg)
    | some (Json.arr (x :: _)) => fieldExtract v resp x
    | some d0 => fieldExtract v resp d0
  else if 400 ≤ resp.status_code ∧ resp.status_code < 500 then
    (Json.null, some (clientErrMsg resp.status_code resp.text))
  else
    (Json.null, some (unexpectedStatusMsg resp.status_code resp.text))

/-- The JSON payload of the POST: `{"sessionId": ...}`, the question under
the configured input field, and the system prompt when one was found and
is truthy. -/
def mkPayload (v : Valves) (chatId : Option String) (question : Json)
    (sysP : Option Json) : List (String × Json) :=
  match sysP with
  | some sp =>
      if Json.pyTruthy sp then
        Json.setKey (Json.setKey
          [("sessionId", Json.str (chatId.getD "unknown_session"))]
          v.input_field question) "systemPrompt" sp
      else
        Json.setKey [("sessionId", Json.str (chatId.getD "unknown_session"))]
          v.input_field question
  | none =>
      Json.setKey [("sessionId", Json.str (chatId.getD "unknown_session"))]
        v.input_field question

/-- Tail of the n8n pipe once the body has been validated and the question
extracted: scan for the system prompt, build the payload, POST, classify
the response, and append either the content or the synthesized error
message to the conversation. -/
def afterValidation (v : Valves) (chatId : Option String) (body : Json)
    (messages question : Json) (resp : HttpResp) : Result :=
  match findSystem (asList messages) with
  | none => .raise "error while scanning for the system prompt"
  | some sysP =>
      if (handleResponse v resp).1 = Json.null then
        .ok { ret := errDict (((handleResponse v resp).2).getD unknownErr),
              body := appendAssistant body (Json.str
                ("Error calling N8N workflow: " ++ ((handleResponse v resp).2).getD unknownErr)),
              postCount := 1, payload := some (mkPayload v chatId question sysP) }
      else
        .ok { ret := (handleResponse v resp).1,
              body := appendAssistant body (handleResponse v resp).1,
              postCount := 1, payload := some (mkPayload v chatId question sysP) }

/-- The dict-body part of the n8n pipe (after the string-body decoding
step): validate the body is a dict with a truthy `messages` value, extract
the last message's content (outside any `try`, so a failure escapes as an
exception), then run `afterValidation`. -/
def validate (v : Valves) (chatId : Option String) (body : Json)
    (resp : HttpResp) : Result :=
  match body with
  | Json.obj bodyFields =>
      if Json.pyTruthy (Json.pyGet bodyFields "messages" (Json.arr [])) then
        match lastContent (Json.pyGet bodyFields "messages" (Json.arr [])) with
        | some question =>
            afterValidation v chatId body
              (Json.pyGet bodyFields "messages" (Json.arr [])) question resp
        | none => .raise "error extracting the last message content"
      else
        match Json.lookup bodyFields "messages" with
        | some (Json.arr _) =>
            .ok { ret := errDict noMessagesErr,
                  body := appendAssistant body (Json.str noMessagesErr),
                  postCount := 0, payload := none }
        | none =>
            .ok { ret := errDict noMessagesErr,
                  body := appendAssistant body (Json.str noMessagesErr),
                  postCount := 0, payload := none }
        | some _ => .raise "append on a non-list messages value"
  | _ =>
      .ok { ret := errDict notDictErr, body := body,
            postCount := 0, payload := none }

/-- Model of `Pipe.pipe` in `src/n8n.py`: a string body is decoded as JSON
first (errors there return without posting); everything else proceeds to
`validate`. -/
def pipe (v : Valves) (chatId : Option String) (body0 : Json)
    (resp : HttpResp) : Result :=
  match body0 with
  | Json.str s =>
      match Json.parse s with
      | some (Json.obj f) => validate v chatId (Json.obj f) resp
      | some j => .ok { ret := errDict (nonDictJsonErr j), body := j,
                        postCount := 0, payload := none }
      | none => .ok { ret := errDict badJsonBodyErr, body := Json.str s,
                      postCount := 0, payload := none }
  | j => validate v chatId j resp

/-- Projection: the returned value of a returning call. -/
def Result.retOf : Result → Option Json
  | .ok o => some o.ret
  | .raise _ => none

/-- Projection: the request body after a returning call. -/
def Result.bodyOf : Result → Option Json
  | .ok o => some o.body
  | .raise _ => none

/-- Projection: the number of POSTs a returning call issued. -/
def Result.postsOf : Result → Option Nat
  | .ok o => some o.postCount
  | .raise _ => none

/-- Projection: the value a returning call placed in its POST payload
under the given key. -/
def Result.payloadField (r : Result) (k : String) : Option Json :=
  match r with
  | .ok o => o.payload.bind (fun pl => Json.lookup pl k)
  | .raise _ => none

/-- Model of `Pipe.emit_status` in `src/n8n.py`: the notification is
delivered when an emitter is present, the status indicator is enabled, and
either the configured interval has elapsed since the last recorded
emission or the status is terminal; the recorded timestamp advances only
on delivered non-terminal notifications.  Returns (delivered, new
last-emit time). -/
def emit_status (hasEmitter enabled : Bool) (emit_interval : ℚ)
    (last_emit_time current_time : ℚ) (done : Bool) : Bool × ℚ :=
  if hasEmitter && enabled &&
      (decide (emit_interval ≤ current_time - last_emit_time) || done) then
    (true, if done then last_emit_time else current_time)
  else
    (false, last_emit_time)

end N8n

/-- Projection: the value a Flowise call placed in its POST payload under
the given key. -/
def Flowise.Outcome.payloadField (o : Flowise.Outcome) (k : String) : Option Json :=
  o.payload.bind (fun pl => Json.lookup pl k)

/-! ### Sample inputs shared by several claims -/

/-- A well-formed single-message conversation. -/
def sampleMsgs : List Json :=
  [Json.obj [("role", Json.str "user"), ("content", Json.str "hi")]]

/-- A well-formed request body holding `sampleMsgs`. -/
def sampleBody : Json := Json.obj [("messages", Json.arr sampleMsgs)]

/-- The SSE lines of the token-token-end stream from the claims. -/
def sseLines : List String :=
  ["data: \x7b\"event\":\"token\",\"data\":\"A\"\x7d",
   "data: \x7b\"event\":\"token\",\"data\":\"B\"\x7d",
   "data: \x7b\"event\":\"end\"\x7d"]

/-! ### Helper lemmas -/

/-- A messages list ending in a concrete entry is truthy. -/
theorem pyTruthy_concat (ms : List Json) (x : Json) :
    Json.pyTruthy (Json.arr (ms ++ [x])) = true := by
  simp [Json.pyTruthy]

/-- Extracting the last content from a list ending in a dict entry reads
that entry's `content` key. -/
theorem lastContent_concat (ms : List Json) (lf : List (String × Json)) :
    lastContent (Json.arr (ms ++ [Json.obj lf])) = Json.lookup lf "content" := by
  simp [lastContent, List.getLast?_concat]

/-- Looking up the key just set returns the set value. -/
theorem lookup_setKey_self (l : List (String × Json)) (k : String) (v : Json) :
    Json.lookup (Json.setKey l k v) k = some v := by
  induction l with
  | nil => simp [Json.setKey, Json.lookup]
  | cons p rest ih =>
      by_cases h : p.1 = k <;> simp [Json.setKey, Json.lookup, h, ih]

/-- Setting one key leaves lookups of other keys unchanged. -/
theorem lookup_setKey_other (l : List (String × Json)) (k k' : String) (v : Json)
    (h : k' ≠ k) : Json.lookup (Json.setKey l k v) k' = Json.lookup l k' := by
  induction l with
  | nil => simp [Json.setKey, Json.lookup, (Ne.symm h : k ≠ k')]
  | cons p rest ih =>
      by_cases h2 : p.1 = k <;> by_cases h3 : p.1 = k' <;>
        simp_all [Json.setKey, Json.lookup]

/-- A character list is a prefix of itself followed by anything. -/
theorem charsPrefix_self (n b : List Char) : n.isPrefixOf (n ++ b) = true := by
  induction n with
  | nil => simp [List.isPrefixOf]
  | cons c cs ih => simp [List.isPrefixOf, ih]

/-- A character list occurs at the head of itself followed by anything. -/
theorem charsInfix_head (n q : List Char) : charsInfix n (n ++ q) = true := by
  cases n with
  | nil =>
      cases q with
      | nil => simp [charsInfix]
      | cons c cs => simp [charsInfix, List.isPrefixOf]
  | cons c cs =>
      simp only [List.cons_append]
      rw [charsInfix]
      simp only [← List.cons_append, charsPrefix_self, Bool.true_or]

/-- A character list occurs inside any list that embeds it contiguously. -/
theorem charsInfix_middle (p n q : List Char) : charsInfix n (p ++ n ++ q) = true := by
  induction p with
  | nil => simpa using charsInfix_head n q
  | cons c p' ih =>
      simp only [List.cons_append, List.append_assoc] at *
      rw [charsInfix]
      simp [ih]

/-- Any string contains any contiguous middle piece of itself. -/
theorem strContains_middle (a s b : String) : strContains (a ++ s ++ b) s = true := by
  have h : (a ++ s ++ b).toList = a.toList ++ s.toList ++ b.toList := by
    simp [String.toList]
  simp only [strContains, h]
  exact charsInfix_middle a.toList s.toList b.toList

/-- Python `or` is truthy exactly when one operand is. -/
theorem pyTruthy_pyOr (a b : Json) :
    Json.pyTruthy (Flowise.pyOr a b) = (Json.pyTruthy a || Json.pyTruthy b) := by
  unfold Flowise.pyOr
  split <;> simp_all

/-- The stringification of a dict document is never empty. -/
theorem pyTruthy_pyStr_obj (f : List (String × Json)) :
    Json.pyTruthy (Json.str (Json.pyStr (Json.obj f))) = true := by
  have h : Json.pyStr (Json.obj f) = "\x7b" ++ (Json.pyReprFields f ++ "\x7d") := rfl
  simp only [Json.pyTruthy, h, String.length_append, decide_eq_true_eq]
  have h1 : ("\x7b" : String).length = 1 := rfl
  omega

/-- The streaming-requested fallback extraction of a dict document is
always truthy (its final alternative stringifies the document). -/
theorem extractFallback_truthy (f : List (String × Json)) :
    Json.pyTruthy (Flowise.extractFallback (Json.obj f)) = true := by
  simp [Flowise.extractFallback, pyTruthy_pyOr, pyTruthy_pyStr_obj]

/-- The non-streaming extraction of a dict document is always truthy. -/
theorem extractPlain_truthy (f : List (String × Json)) :
    Json.pyTruthy (Flowise.extractPlain (Json.obj f)) = true := by
  simp [Flowise.extractPlain, pyTruthy_pyOr, pyTruthy_pyStr_obj]

/-- A string decomposing around a middle piece contains that piece. -/
theorem strContains_of_middle (x a s b : String) (h : x = a ++ s ++ b) :
    strContains x s = true := by
  rw [h]
  exact strContains_middle a s b

/-- The Flowise payload always carries the question under `question`. -/
theorem mkPayload_question (v : Flowise.Valves) (q : Json) :
    Json.lookup (Flowise.mkPayload v q) "question" = some q := by
  unfold Flowise.mkPayload
  split
  · rw [lookup_setKey_other _ _ _ _ (by decide)]
    simp [Json.lookup]
  · simp [Json.lookup]

/-- Every branch of the Flowise post-status phase records the payload. -/
theorem afterPost_payload (v : Flowise.Valves) (b : Json)
    (pl : List (String × Json)) (r : Flowise.HttpResp) :
    (Flowise.afterPost v b pl r).payload = some pl := by
  unfold Flowise.afterPost
  split
  · rfl
  · split <;> rfl

/-- Every branch of the Flowise post-status phase either leaves the body
alone and returns an error dictionary, or appends exactly the truthy
content it returns. -/
theorem afterPost_shape (v : Flowise.Valves) (b : Json)
    (pl : List (String × Json)) (r : Flowise.HttpResp) :
    ((Flowise.afterPost v b pl r).body = b
      ∧ ∃ m, (Flowise.afterPost v b pl r).ret = errDict m)
    ∨ (∃ c, Json.pyTruthy c = true
        ∧ (Flowise.afterPost v b pl r).body = appendAssistant b c
        ∧ (Flowise.afterPost v b pl r).ret = c) := by
  unfold Flowise.afterPost
  by_cases h4 : 400 ≤ r.status_code ∧ r.status_code < 600
  · rw [if_pos h4]
    exact Or.inl ⟨rfl, _, rfl⟩
  · rw [if_neg h4]
    by_cases ht : Json.pyTruthy (Flowise.contentStep v r).2 = true
    · rw [if_pos ht]
      exact Or.inr ⟨_, ht, rfl, rfl⟩
    · rw [if_neg ht]
      exact Or.inl ⟨rfl, _, rfl⟩

/-- Every Flowise pipe call either leaves the body alone and returns an
error dictionary, or appends exactly the truthy content it returns. -/
theorem pipe_shape (v : Flowise.Valves) (body : Json) (resp : Flowise.HttpResp) :
    ((Flowise.pipe v body resp).body = body
      ∧ ∃ m, (Flowise.pipe v body resp).ret = errDict m)
    ∨ (∃ c, Json.pyTruthy c = true
        ∧ (Flowise.pipe v body resp).body = appendAssistant body c
        ∧ (Flowise.pipe v body resp).ret = c) := by
  unfold Flowise.pipe
  split
  · split
    · split
      · split
        · apply afterPost_shape
        · exact Or.inl ⟨rfl, _, rfl⟩
      · exact Or.inl ⟨rfl, _, rfl⟩
    · exact Or.inl ⟨rfl, _, rfl⟩
  · exact Or.inl ⟨rfl, _, rfl⟩

/-- The n8n payload lookup of the configured input field yields the
question whenever the system-prompt assignment cannot overwrite it. -/
theorem mkPayloadN_input (nv : N8n.Valves) (cid : Option String) (q : Json)
    (osp : Option Json)
    (hnsp : nv.input_field = "systemPrompt" → N8n.sysTruthy osp = false) :
    Json.lookup (N8n.mkPayload nv cid q osp) nv.input_field = some q := by
  cases osp with
  | none =>
      simp only [N8n.mkPayload]
      exact lookup_setKey_self _ _ _
  | some sp =>
      simp only [N8n.mkPayload]
      by_cases ht : Json.pyTruthy sp = true
      · rw [if_pos ht]
        have hne : nv.input_field ≠ "systemPrompt" := by
          intro he
          have h2 := hnsp he
          simp [N8n.sysTruthy, ht] at h2
        rw [lookup_setKey_other _ _ _ _ hne]
        exact lookup_setKey_self _ _ _
      · rw [if_neg ht]
        exact lookup_setKey_self _ _ _

/-- A Flowise call on a well-formed body (a dict whose messages list ends
in a message with string content) reaches the post-status phase with the
question payload. -/
theorem pipe_wf (v : Flowise.Valves) (bf : List (String × Json)) (ms : List Json)
    (lf : List (String × Json)) (s : String) (resp : Flowise.HttpResp)
    (hmsg : Json.lookup bf "messages" = some (Json.arr (ms ++ [Json.obj lf])))
    (hc : Json.lookup lf "content" = some (Json.str s)) :
    Flowise.pipe v (Json.obj bf) resp
      = Flowise.afterPost v (Json.obj bf) (Flowise.mkPayload v (Json.str s)) resp := by
  have hm : Json.pyGet bf "messages" (Json.arr []) = Json.arr (ms ++ [Json.obj lf]) := by
    simp [Json.pyGet, hmsg]
  simp [Flowise.pipe, hm, pyTruthy_concat, lastContent_concat, hc, sliceable]

/-- The 4xx/5xx branch of the Flowise post-status phase: error dictionary,
unchanged body, response left unclosed. -/
theorem afterPost_4xx (v : Flowise.Valves) (b : Json) (pl : List (String × Json))
    (r : Flowise.HttpResp) (h4a : 400 ≤ r.status_code) (h4b : r.status_code < 600) :
    Flowise.afterPost v b pl r
      = { ret := errDict (Flowise.httpErrMsg r.status_code r.text), body := b,
          posted := true, payload := some pl, closed := false } := by
  unfold Flowise.afterPost
  rw [if_pos ⟨h4a, h4b⟩]

/-- Outside the 4xx/5xx branch the Flowise post-status phase always closes
the response. -/
theorem afterPost_closed (v : Flowise.Valves) (b : Json) (pl : List (String × Json))
    (r : Flowise.HttpResp) (h4 : ¬(400 ≤ r.status_code ∧ r.status_code < 600)) :
    (Flowise.afterPost v b pl r).closed = true := by
  unfold Flowise.afterPost
  rw [if_neg h4]
  by_cases ht : Json.pyTruthy (Flowise.contentStep v r).2 = true
  · rw [if_pos ht]
  · rw [if_neg ht]

/-- The Flowise post-status phase always marks the POST as issued. -/
theorem afterPost_posted (v : Flowise.Valves) (b : Json) (pl : List (String × Json))
    (r : Flowise.HttpResp) : (Flowise.afterPost v b pl r).posted = true := by
  unfold Flowise.afterPost
  split
  · rfl
  · split <;> rfl

/-- An n8n call on a well-formed dict body reaches `afterValidation`. -/
theorem validate_wf (v : N8n.Valves) (cid : Option String)
    (bf : List (String × Json)) (ms : List Json) (lf : List (String × Json))
    (s : String) (resp : N8n.HttpResp)
    (hmsg : Json.lookup bf "messages" = some (Json.arr (ms ++ [Json.obj lf])))
    (hc : Json.lookup lf "content" = some (Json.str s)) :
    N8n.pipe v cid (Json.obj bf) resp
      = N8n.afterValidation v cid (Json.obj bf)
          (Json.arr (ms ++ [Json.obj lf])) (Json.str s) resp := by
  have hm : Json.pyGet bf "messages" (Json.arr []) = Json.arr (ms ++ [Json.obj lf]) := by
    simp [Json.pyGet, hmsg]
  have h0 : N8n.pipe v cid (Json.obj bf) resp = N8n.validate v cid (Json.obj bf) resp := rfl
  rw [h0]
  simp [N8n.validate, hm, pyTruthy_concat, lastContent_concat, hc]

/-- The 4xx branch of the n8n response handling. -/
theorem handleResponse_4xx (v : N8n.Valves) (r : N8n.HttpResp)
    (h4a : 400 ≤ r.status_code) (h4b : r.status_code < 500) :
    N8n.handleResponse v r = (Json.null, some (N8n.clientErrMsg r.status_code r.text)) := by
  unfold N8n.handleResponse
  rw [if_neg (by omega), if_pos ⟨h4a, h4b⟩]

/-- When the n8n response handling records an error and no content, the
pipe returns the error dictionary and appends the synthesized assistant
message. -/
theorem afterValidation_err (v : N8n.Valves) (cid : Option String)
    (b msgs q : Json) (r : N8n.HttpResp) (osp : Option Json) (msg : String)
    (hsys : N8n.findSystem (N8n.asList msgs) = some osp)
    (hhr : N8n.handleResponse v r = (Json.null, some msg)) :
    N8n.afterValidation v cid b msgs q r
      = .ok { ret := errDict msg,
              body := appendAssistant b (Json.str ("Error calling N8N workflow: " ++ msg)),
              postCount := 1, payload := some (N8n.mkPayload v cid q osp) } := by
  simp [N8n.afterValidation, hsys, hhr]

/-- The validated n8n pipe returns an outcome recording the payload built
by `mkPayload`. -/
theorem afterValidation_payload (v : N8n.Valves) (cid : Option String)
    (b msgs q : Json) (r : N8n.HttpResp) (osp : Option Json)
    (hsys : N8n.findSystem (N8n.asList msgs) = some osp) :
    ∃ o, N8n.afterValidation v cid b msgs q r = .ok o
      ∧ o.payload = some (N8n.mkPayload v cid q osp) := by
  simp only [N8n.afterValidation, hsys]
  by_cases h : (N8n.handleResponse v r).1 = Json.null
  · rw [if_pos h]
    exact ⟨_, rfl, rfl⟩
  · rw [if_neg h]
    exact ⟨_, rfl, rfl⟩

/-! ## The claims -/

/-- Claim C1 (corrected), counterexample: at a concrete Flowise call whose
POST completes with status 404, the pipe returns the error dictionary but
the conversation body comes back unchanged, still holding exactly its one
original message — the transcript does not gain an assistant message, as
the claim demands for both adapters. -/
theorem claim1_counterexample :
    (Flowise.pipe ⟨true⟩ sampleBody ⟨404, "", "Not Found", []⟩).ret
        = errDict (Flowise.httpErrMsg 404 "Not Found")
    ∧ (Flowise.pipe ⟨true⟩ sampleBody ⟨404, "", "Not Found", []⟩).body = sampleBody
    ∧ msgList sampleBody = some sampleMsgs
    ∧ sampleMsgs.length = 1 := by decide

/-- Claim C1 (amended): when the POST completes with a 4xx status, both
adapters return the `{"error": ...}` dictionary from their single POST
without a retry; the n8n adapter appends exactly one assistant message
recording the failure, while the Flowise adapter returns with the
conversation body unchanged. -/
theorem claim1_theorem (bf : List (String × Json)) (ms : List Json)
    (lf : List (String × Json)) (s : String)
    (hmsg : Json.lookup bf "messages" = some (Json.arr (ms ++ [Json.obj lf])))
    (hc : Json.lookup lf "content" = some (Json.str s))
    (fv : Flowise.Valves) (fr : Flowise.HttpResp)
    (hf4a : 400 ≤ fr.status_code) (hf4b : fr.status_code < 500)
    (nv : N8n.Valves) (cid : Option String) (nr : N8n.HttpResp)
    (hn4a : 400 ≤ nr.status_code) (hn4b : nr.status_code < 500)
    (osp : Option Json)
    (hsys : N8n.findSystem (ms ++ [Json.obj lf]) = some osp) :
    ((Flowise.pipe fv (Json.obj bf) fr).ret
        = errDict (Flowise.httpErrMsg fr.status_code fr.text)
      ∧ (Flowise.pipe fv (Json.obj bf) fr).body = Json.obj bf
      ∧ (Flowise.pipe fv (Json.obj bf) fr).posted = true)
    ∧ ((N8n.pipe nv cid (Json.obj bf) nr).retOf
        = some (errDict (N8n.clientErrMsg nr.status_code nr.text))
      ∧ (N8n.pipe nv cid (Json.obj bf) nr).postsOf = some 1
      ∧ (N8n.pipe nv cid (Json.obj bf) nr).bodyOf
        = some (Json.obj (Json.setKey bf "messages" (Json.arr ((ms ++ [Json.obj lf])
            ++ [Json.obj [("role", Json.str "assistant"),
                 ("content", Json.str ("Error calling N8N workflow: "
                   ++ N8n.clientErrMsg nr.status_code nr.text))]]))))) := by
  have hp := pipe_wf fv bf ms lf s fr hmsg hc
  have h4 := afterPost_4xx fv (Json.obj bf) (Flowise.mkPayload fv (Json.str s)) fr
    hf4a (by omega)
  have hhr := handleResponse_4xx nv nr hn4a hn4b
  have hav := afterValidation_err nv cid (Json.obj bf)
    (Json.arr (ms ++ [Json.obj lf])) (Json.str s) nr osp
    (N8n.clientErrMsg nr.status_code nr.text)
    (by simpa [N8n.asList] using hsys) hhr
  have hvp := validate_wf nv cid bf ms lf s nr hmsg hc
  have happ : appendAssistant (Json.obj bf)
      (Json.str ("Error calling N8N workflow: " ++ N8n.clientErrMsg nr.status_code nr.text))
      = Json.obj (Json.setKey bf "messages" (Json.arr ((ms ++ [Json.obj lf])
          ++ [Json.obj [("role", Json.str "assistant"),
               ("content", Json.str ("Error calling N8N workflow: "
                 ++ N8n.clientErrMsg nr.status_code nr.text))]]))) := by
    simp [appendAssistant, hmsg]
  constructor
  · rw [hp, h4]
    exact ⟨rfl, rfl, rfl⟩
  · rw [hvp, hav]
    refine ⟨rfl, rfl, ?_⟩
    simp [N8n.Result.bodyOf, happ]

/-- Witness for claim C1 at a concrete 404 from both endpoints. -/
theorem claim1_witness :
    ((Flowise.pipe ⟨true⟩ sampleBody ⟨404, "", "nf", []⟩).ret
        = errDict (Flowise.httpErrMsg 404 "nf")
      ∧ (Flowise.pipe ⟨true⟩ sampleBody ⟨404, "", "nf", []⟩).body = sampleBody
      ∧ (Flowise.pipe ⟨true⟩ sampleBody ⟨404, "", "nf", []⟩).posted = true)
    ∧ ((N8n.pipe ⟨"chatInput", "output"⟩ none sampleBody ⟨404, "nf"⟩).retOf
        = some (errDict (N8n.clientErrMsg 404 "nf"))
      ∧ (N8n.pipe ⟨"chatInput", "output"⟩ none sampleBody ⟨404, "nf"⟩).postsOf = some 1
      ∧ (N8n.pipe ⟨"chatInput", "output"⟩ none sampleBody ⟨404, "nf"⟩).bodyOf
        = some (Json.obj (Json.setKey [("messages", Json.arr sampleMsgs)] "messages"
            (Json.arr ((([] : List Json) ++ [Json.obj [("role", Json.str "user"), ("content", Json.str "hi")]])
              ++ [Json.obj [("role", Json.str "assistant"),
                   ("content", Json.str ("Error calling N8N workflow: "
                     ++ N8n.clientErrMsg 404 "nf"))]]))))) :=
  claim1_theorem [("messages", Json.arr sampleMsgs)] []
    [("role", Json.str "user"), ("content", Json.str "hi")] "hi"
    (by decide) (by decide) ⟨true⟩ ⟨404, "", "nf", []⟩ (by decide) (by decide)
    ⟨"chatInput", "output"⟩ none ⟨404, "nf"⟩ (by decide) (by decide)
    none (by decide)

/-- Claim C2 (confirmed): with streaming enabled and a 2xx response whose
content type contains `text/event-stream` and whose lines carry token `A`,
token `B`, then `end`, followed by any further lines, the Flowise pipe
accumulates and returns exactly `AB`, and the line loop's result is the
same as on the stream truncated at the `end` event — nothing after the
`end` line is processed. -/
theorem claim2_theorem (ct txt : String) (rest : List String)
    (hct : strContains ct "text/event-stream" = true) :
    (Flowise.pipe ⟨true⟩ sampleBody ⟨200, ct, txt, sseLines ++ rest⟩).ret = Json.str "AB"
    ∧ Flowise.processLines (sseLines ++ rest) "" = Flowise.processLines sseLines "" := by
  constructor
  · show (Flowise.afterPost ⟨true⟩ sampleBody
        (Flowise.mkPayload ⟨true⟩ (Json.str "hi")) ⟨200, ct, txt, sseLines ++ rest⟩).ret
        = Json.str "AB"
    have hr : Flowise.processLines (sseLines ++ rest) "" = Flowise.StreamOut.done "AB" := rfl
    simp +decide [Flowise.afterPost, Flowise.contentStep, hct, hr]
  · rfl

/-- Witness for claim C2 at a concrete content type with a junk suffix
after the `end` event. -/
theorem claim2_witness :
    (Flowise.pipe ⟨true⟩ sampleBody
        ⟨200, "text/event-stream", "", sseLines ++ ["data: junk"]⟩).ret = Json.str "AB"
    ∧ Flowise.processLines (sseLines ++ ["data: junk"]) ""
        = Flowise.processLines sseLines "" :=
  claim2_theorem "text/event-stream" "" ["data: junk"] (by decide)

/-- Claim C3 (corrected), counterexample: at a concrete Flowise call the
POST is issued and completes with status 404, and the call returns without
the response having been closed — the `raise_for_status` handler returns
directly, skipping every `with`/`finally` that closes the response. -/
theorem claim3_counterexample :
    (Flowise.pipe ⟨true⟩ sampleBody ⟨404, "", "Not Found", []⟩).posted = true
    ∧ (Flowise.pipe ⟨true⟩ sampleBody ⟨404, "", "Not Found", []⟩).closed = false := by
  decide

/-- Claim C3 (amended): on every well-formed Flowise call that issues the
POST, the response is closed before the call returns on every exit path
except the HTTP-error-status path: when the status is outside 4xx/5xx the
response is always closed (success, parse failure, stream break and stream
abort alike), and when `raise_for_status` raises (4xx/5xx) the call
returns without closing it. -/
theorem claim3_theorem (bf : List (String × Json)) (ms : List Json)
    (lf : List (String × Json)) (s : String)
    (hmsg : Json.lookup bf "messages" = some (Json.arr (ms ++ [Json.obj lf])))
    (hc : Json.lookup lf "content" = some (Json.str s))
    (fv : Flowise.Valves) (fr : Flowise.HttpResp) :
    (Flowise.pipe fv (Json.obj bf) fr).posted = true
    ∧ (400 ≤ fr.status_code ∧ fr.status_code < 600 →
        (Flowise.pipe fv (Json.obj bf) fr).closed = false)
    ∧ (¬(400 ≤ fr.status_code ∧ fr.status_code < 600) →
        (Flowise.pipe fv (Json.obj bf) fr).closed = true) := by
  have hp := pipe_wf fv bf ms lf s fr hmsg hc
  refine ⟨?_, ?_, ?_⟩
  · rw [hp]
    exact afterPost_posted fv (Json.obj bf) (Flowise.mkPayload fv (Json.str s)) fr
  · intro h4
    rw [hp, afterPost_4xx fv (Json.obj bf) (Flowise.mkPayload fv (Json.str s)) fr h4.1 h4.2]
  · intro h4
    rw [hp]
    exact afterPost_closed fv (Json.obj bf) (Flowise.mkPayload fv (Json.str s)) fr h4

/-- Witness for claim C3 at a 404 call and at a 200 streaming call. -/
theorem claim3_witness :
    ((Flowise.pipe ⟨true⟩ sampleBody ⟨404, "", "nf", []⟩).posted = true
      ∧ (400 ≤ (404 : Nat) ∧ (404 : Nat) < 600 →
          (Flowise.pipe ⟨true⟩ sampleBody ⟨404, "", "nf", []⟩).closed = false)
      ∧ (¬(400 ≤ (404 : Nat) ∧ (404 : Nat) < 600) →
          (Flowise.pipe ⟨true⟩ sampleBody ⟨404, "", "nf", []⟩).closed = true))
    ∧ ((Flowise.pipe ⟨true⟩ sampleBody ⟨200, "text/event-stream", "", sseLines⟩).posted = true
      ∧ (400 ≤ (200 : Nat) ∧ (200 : Nat) < 600 →
          (Flowise.pipe ⟨true⟩ sampleBody ⟨200, "text/event-stream", "", sseLines⟩).closed = false)
      ∧ (¬(400 ≤ (200 : Nat) ∧ (200 : Nat) < 600) →
          (Flowise.pipe ⟨true⟩ sampleBody ⟨200, "text/event-stream", "", sseLines⟩).closed = true)) :=
  ⟨claim3_theorem [("messages", Json.arr sampleMsgs)] []
      [("role", Json.str "user"), ("content", Json.str "hi")] "hi"
      (by decide) (by decide) ⟨true⟩ ⟨404, "", "nf", []⟩,
   claim3_theorem [("messages", Json.arr sampleMsgs)] []
      [("role", Json.str "user"), ("content", Json.str "hi")] "hi"
      (by decide) (by decide) ⟨true⟩ ⟨200, "text/event-stream", "", sseLines⟩⟩

/-- A Flowise call on the sample body reaches the post-status phase. -/
theorem pipe_sample (v : Flowise.Valves) (r : Flowise.HttpResp) :
    Flowise.pipe v sampleBody r
      = Flowise.afterPost v sampleBody (Flowise.mkPayload v (Json.str "hi")) r :=
  pipe_wf v [("messages", Json.arr sampleMsgs)] []
    [("role", Json.str "user"), ("content", Json.str "hi")] "hi" r
    (by decide) (by decide)

/-- An n8n call on the sample body reaches `afterValidation`. -/
theorem validate_sample (v : N8n.Valves) (cid : Option String) (r : N8n.HttpResp) :
    N8n.pipe v cid sampleBody r
      = N8n.afterValidation v cid sampleBody (Json.arr sampleMsgs) (Json.str "hi") r :=
  validate_wf v cid [("messages", Json.arr sampleMsgs)] []
    [("role", Json.str "user"), ("content", Json.str "hi")] "hi" r
    (by decide) (by decide)

/-- Claim C4 (confirmed): with an emitter present and the status indicator
enabled, of two non-terminal n8n status emissions issued less than the
configured interval apart where the first passed the throttle, only the
first is delivered — the second one is dropped; and a terminal (done)
emission is always delivered, whatever the recorded last-emission time. -/
theorem claim4_theorem (iv last0 t1 t2 : ℚ)
    (h1 : (N8n.emit_status true true iv last0 t1 false).1 = true)
    (h2 : t2 - t1 < iv) :
    (N8n.emit_status true true iv
        ((N8n.emit_status true true iv last0 t1 false).2) t2 false).1 = false
    ∧ ∀ lastT now : ℚ, (N8n.emit_status true true iv lastT now true).1 = true := by
  constructor
  · have hsnd : (N8n.emit_status true true iv last0 t1 false).2 = t1 := by
      by_cases hcond : (true && true && (decide (iv ≤ t1 - last0) || false)) = true
      · unfold N8n.emit_status
        rw [if_pos hcond]
        rfl
      · unfold N8n.emit_status at h1
        rw [if_neg hcond] at h1
        simp at h1
    rw [hsnd]
    have hno : ¬ (iv ≤ t2 - t1) := by linarith
    simp [N8n.emit_status, hno]
  · intro lastT now
    simp [N8n.emit_status]

/-- Witness for claim C4 with a two-second interval and emissions at
times five and six after a delivery recorded at time zero. -/
theorem claim4_witness :
    (N8n.emit_status true true 2
        ((N8n.emit_status true true 2 0 5 false).2) 6 false).1 = false
    ∧ ∀ lastT now : ℚ, (N8n.emit_status true true 2 lastT now true).1 = true :=
  claim4_theorem 2 0 5 6 (by norm_num [N8n.emit_status]) (by norm_num)

/-- Claim C5 (corrected), counterexample: with `input_field` configured as
`systemPrompt` and a conversation holding a system message, the later
system-prompt assignment overwrites the question: the last message's
content is `Q`, but the n8n payload's entry under the configured input
field carries the system message `S` instead. -/
theorem claim5_counterexample :
    lastContent (Json.arr
        [Json.obj [("role", Json.str "system"), ("content", Json.str "S")],
         Json.obj [("role", Json.str "user"), ("content", Json.str "Q")]])
      = some (Json.str "Q")
    ∧ (N8n.pipe ⟨"systemPrompt", "output"⟩ none
        (Json.obj [("messages", Json.arr
          [Json.obj [("role", Json.str "system"), ("content", Json.str "S")],
           Json.obj [("role", Json.str "user"), ("content", Json.str "Q")]])])
        ⟨404, "x"⟩).payloadField "systemPrompt" = some (Json.str "S")
    ∧ Json.str "S" ≠ Json.str "Q" := by decide

/-- Claim C5 (amended): on a well-formed body whose last message content
is a string, the Flowise payload carries that content under `question`,
and the n8n payload carries it under the configured input field provided
the input field is not `systemPrompt` while a truthy system prompt is
present (in that remaining case the `systemPrompt` assignment overwrites
the entry). -/
theorem claim5_theorem (bf : List (String × Json)) (ms : List Json)
    (lf : List (String × Json)) (s : String)
    (hmsg : Json.lookup bf "messages" = some (Json.arr (ms ++ [Json.obj lf])))
    (hc : Json.lookup lf "content" = some (Json.str s))
    (fv : Flowise.Valves) (fr : Flowise.HttpResp)
    (nv : N8n.Valves) (cid : Option String) (nr : N8n.HttpResp)
    (osp : Option Json)
    (hsys : N8n.findSystem (ms ++ [Json.obj lf]) = some osp)
    (hnsp : nv.input_field = "systemPrompt" → N8n.sysTruthy osp = false) :
    (Flowise.pipe fv (Json.obj bf) fr).payloadField "question" = some (Json.str s)
    ∧ (N8n.pipe nv cid (Json.obj bf) nr).payloadField nv.input_field
        = some (Json.str s) := by
  constructor
  · rw [pipe_wf fv bf ms lf s fr hmsg hc]
    simp [Flowise.Outcome.payloadField, afterPost_payload, mkPayload_question]
  · rw [validate_wf nv cid bf ms lf s nr hmsg hc]
    obtain ⟨o, ho, hpl⟩ := afterValidation_payload nv cid (Json.obj bf)
      (Json.arr (ms ++ [Json.obj lf])) (Json.str s) nr osp
      (by simpa [N8n.asList] using hsys)
    rw [ho]
    simp [N8n.Result.payloadField, hpl,
      mkPayloadN_input nv cid (Json.str s) osp hnsp]

/-- Witness for claim C5 on the sample body with default-style valves. -/
theorem claim5_witness :
    (Flowise.pipe ⟨true⟩ (Json.obj [("messages", Json.arr sampleMsgs)])
        ⟨200, "", "x", []⟩).payloadField "question" = some (Json.str "hi")
    ∧ (N8n.pipe ⟨"chatInput", "output"⟩ none
        (Json.obj [("messages", Json.arr sampleMsgs)])
        ⟨200, "[]"⟩).payloadField "chatInput" = some (Json.str "hi") :=
  claim5_theorem [("messages", Json.arr sampleMsgs)] []
    [("role", Json.str "user"), ("content", Json.str "hi")] "hi"
    (by decide) (by decide) ⟨true⟩ ⟨200, "", "x", []⟩
    ⟨"chatInput", "output"⟩ none ⟨200, "[]"⟩ none (by decide) (by decide)

/-- Claim C6 (confirmed): a dict body whose `messages` entry is absent or
the empty list makes both adapters return an input-validation error
dictionary without issuing the POST (the n8n adapter also appends the
error text to the conversation; the Flowise adapter returns directly). -/
theorem claim6_theorem (bf : List (String × Json))
    (h : Json.lookup bf "messages" = none
      ∨ Json.lookup bf "messages" = some (Json.arr []))
    (fv : Flowise.Valves) (fr : Flowise.HttpResp)
    (nv : N8n.Valves) (cid : Option String) (nr : N8n.HttpResp) :
    ((Flowise.pipe fv (Json.obj bf) fr).ret = errDict Flowise.noMessagesErr
      ∧ (Flowise.pipe fv (Json.obj bf) fr).posted = false)
    ∧ N8n.pipe nv cid (Json.obj bf) nr
      = .ok { ret := errDict N8n.noMessagesErr,
              body := appendAssistant (Json.obj bf) (Json.str N8n.noMessagesErr),
              postCount := 0, payload := none } := by
  have hm : Json.pyGet bf "messages" (Json.arr []) = Json.arr [] := by
    rcases h with h | h <;> simp [Json.pyGet, h]
  constructor
  · constructor <;> simp [Flowise.pipe, hm, Json.pyTruthy]
  · have h0 : N8n.pipe nv cid (Json.obj bf) nr = N8n.validate nv cid (Json.obj bf) nr := rfl
    rw [h0]
    rcases h with h | h <;> simp [N8n.validate, hm, h, Json.pyTruthy]

/-- Witness for claim C6 on a body carrying an empty messages list. -/
theorem claim6_witness :
    ((Flowise.pipe ⟨true⟩ (Json.obj [("messages", Json.arr [])])
        ⟨200, "", "x", []⟩).ret = errDict Flowise.noMessagesErr
      ∧ (Flowise.pipe ⟨true⟩ (Json.obj [("messages", Json.arr [])])
        ⟨200, "", "x", []⟩).posted = false)
    ∧ N8n.pipe ⟨"chatInput", "output"⟩ none (Json.obj [("messages", Json.arr [])]) ⟨200, "[]"⟩
      = .ok { ret := errDict N8n.noMessagesErr,
              body := appendAssistant (Json.obj [("messages", Json.arr [])])
                (Json.str N8n.noMessagesErr),
              postCount := 0, payload := none } :=
  claim6_theorem [("messages", Json.arr [])] (Or.inr (by decide))
    ⟨true⟩ ⟨200, "", "x", []⟩ ⟨"chatInput", "output"⟩ none ⟨200, "[]"⟩

/-- Claim C7 (confirmed): for a 2xx n8n response, the body `[{"output":
"ok"}]` with response field `output` yields the returned string `ok`; the
body `[]` yields an error whose message mentions the empty list; and any
2xx JSON-object body missing the configured response field yields an error
whose message reports the available keys. -/
theorem claim7_theorem (nv : N8n.Valves) (cid : Option String) (nr : N8n.HttpResp)
    (fields : List (String × Json))
    (hst : 200 ≤ nr.status_code ∧ nr.status_code < 300)
    (hparse : Json.parse nr.text = some (Json.obj fields))
    (hmiss : Json.lookup fields nv.response_field = none) :
    (N8n.pipe ⟨"chatInput", "output"⟩ (some "c1") sampleBody
        ⟨200, "[\x7b\"output\": \"ok\"\x7d]"⟩).retOf = some (Json.str "ok")
    ∧ ((N8n.pipe ⟨"chatInput", "output"⟩ (some "c1") sampleBody ⟨200, "[]"⟩).retOf
        = some (errDict N8n.emptyListMsg)
      ∧ strContains N8n.emptyListMsg "empty list" = true)
    ∧ ((N8n.pipe nv cid sampleBody nr).retOf
        = some (errDict (N8n.missingFieldMsg nr.status_code nv.response_field
            (N8n.keysRepr fields) nr.text))
      ∧ strContains (N8n.missingFieldMsg nr.status_code nv.response_field
          (N8n.keysRepr fields) nr.text) (N8n.keysRepr fields) = true) := by
  refine ⟨by decide, ⟨by decide, by decide⟩, ?_, ?_⟩
  · have hhr : N8n.handleResponse nv nr
        = (Json.null, some (N8n.missingFieldMsg nr.status_code nv.response_field
            (N8n.keysRepr fields) nr.text)) := by
      unfold N8n.handleResponse
      rw [if_pos hst, hparse]
      simp [N8n.fieldExtract, hmiss]
    have hav := afterValidation_err nv cid sampleBody (Json.arr sampleMsgs)
      (Json.str "hi") nr none
      (N8n.missingFieldMsg nr.status_code nv.response_field (N8n.keysRepr fields) nr.text)
      (by decide) hhr
    rw [validate_sample nv cid nr, hav]
    rfl
  · exact strContains_of_middle
      (N8n.missingFieldMsg nr.status_code nv.response_field (N8n.keysRepr fields) nr.text)
      ("N8N workflow responded successfully (status " ++ toString nr.status_code
        ++ ") but missing expected response field \x27" ++ nv.response_field
        ++ "\x27. Available keys: ")
      (N8n.keysRepr fields)
      (". Response snippet: " ++ nr.text.take 150 ++ "...")
      (by simp [N8n.missingFieldMsg, String.append_assoc])

/-- Witness for claim C7 at the response body `{"foo": "bar"}`, which
lacks the configured field `output`. -/
theorem claim7_witness :
    (N8n.pipe ⟨"chatInput", "output"⟩ (some "c1") sampleBody
        ⟨200, "[\x7b\"output\": \"ok\"\x7d]"⟩).retOf = some (Json.str "ok")
    ∧ ((N8n.pipe ⟨"chatInput", "output"⟩ (some "c1") sampleBody ⟨200, "[]"⟩).retOf
        = some (errDict N8n.emptyListMsg)
      ∧ strContains N8n.emptyListMsg "empty list" = true)
    ∧ ((N8n.pipe ⟨"chatInput", "output"⟩ none sampleBody
          ⟨200, "\x7b\"foo\": \"bar\"\x7d"⟩).retOf
        = some (errDict (N8n.missingFieldMsg 200 "output"
            (N8n.keysRepr [("foo", Json.str "bar")]) "\x7b\"foo\": \"bar\"\x7d"))
      ∧ strContains (N8n.missingFieldMsg 200 "output"
          (N8n.keysRepr [("foo", Json.str "bar")]) "\x7b\"foo\": \"bar\"\x7d")
          (N8n.keysRepr [("foo", Json.str "bar")]) = true) :=
  claim7_theorem ⟨"chatInput", "output"⟩ none ⟨200, "\x7b\"foo\": \"bar\"\x7d"⟩
    [("foo", Json.str "bar")] (by decide) (by decide) (by decide)

/-- Claim C8 (corrected), counterexample: with streaming requested but a
non-event-stream content type, the body `{"output": "x"}` does not yield
`x` — the fallback extraction checks only `text`, `answer` and `response`
and stringifies the document; and with streaming disabled, the body
`{"text": "", "answer": "hi"}` yields `hi`, not the value of the first
present field `text`, because the chain skips falsy values. -/
theorem claim8_counterexample :
    ((Flowise.pipe ⟨true⟩ sampleBody
        ⟨200, "application/json", "\x7b\"output\": \"x\"\x7d", []⟩).ret
      = Json.str "\x7b\x27output\x27: \x27x\x27\x7d"
    ∧ (Flowise.pipe ⟨true⟩ sampleBody
        ⟨200, "application/json", "\x7b\"output\": \"x\"\x7d", []⟩).ret
      ≠ Json.str "x")
    ∧ ((Flowise.pipe ⟨false⟩ sampleBody
        ⟨200, "", "\x7b\"text\": \"\", \"answer\": \"hi\"\x7d", []⟩).ret
      = Json.str "hi"
    ∧ (Flowise.pipe ⟨false⟩ sampleBody
        ⟨200, "", "\x7b\"text\": \"\", \"answer\": \"hi\"\x7d", []⟩).ret
      ≠ Json.str "") := by decide

/-- Claim C8 (amended): on a 2xx JSON-object response processed
non-streaming, the result is the first of the fields whose value is truthy
— `text`, `answer`, `response` when streaming was requested but the
content type is not an event stream, and additionally `output` when
streaming is disabled — else the stringified document; in particular, with
streaming requested and a non-event-stream content type, `{"answer":
"hi"}` yields `hi`. -/
theorem claim8_theorem (fields : List (String × Json)) (ct txt txt2 : String)
    (ls ls2 : List String)
    (hct : strContains ct "text/event-stream" = false)
    (hparse : Json.parse txt = some (Json.obj fields))
    (hp2 : Json.parse txt2 = some (Json.obj [("answer", Json.str "hi")])) :
    (Flowise.pipe ⟨true⟩ sampleBody ⟨200, ct, txt, ls⟩).ret
        = Flowise.extractFallback (Json.obj fields)
    ∧ (Flowise.pipe ⟨false⟩ sampleBody ⟨200, ct, txt, ls⟩).ret
        = Flowise.extractPlain (Json.obj fields)
    ∧ (Flowise.pipe ⟨true⟩ sampleBody ⟨200, ct, txt2, ls2⟩).ret = Json.str "hi" := by
  have h1 : Flowise.contentStep ⟨true⟩ ⟨200, ct, txt, ls⟩
      = (none, Flowise.extractFallback (Json.obj fields)) := by
    simp [Flowise.contentStep, hct, hparse]
  have h2 : Flowise.contentStep ⟨false⟩ ⟨200, ct, txt, ls⟩
      = (none, Flowise.extractPlain (Json.obj fields)) := by
    simp [Flowise.contentStep, hparse]
  have h3 : Flowise.contentStep ⟨true⟩ ⟨200, ct, txt2, ls2⟩
      = (none, Flowise.extractFallback (Json.obj [("answer", Json.str "hi")])) := by
    simp [Flowise.contentStep, hct, hp2]
  refine ⟨?_, ?_, ?_⟩
  · rw [pipe_sample]
    simp +decide [Flowise.afterPost, h1, extractFallback_truthy]
  · rw [pipe_sample]
    simp +decide [Flowise.afterPost, h2, extractPlain_truthy]
  · rw [pipe_sample]
    simp +decide [Flowise.afterPost, h3, extractFallback_truthy]

/-- Witness for claim C8 at concrete response bodies. -/
theorem claim8_witness :
    (Flowise.pipe ⟨true⟩ sampleBody
        ⟨200, "application/json", "\x7b\"output\": \"x\"\x7d", []⟩).ret
      = Flowise.extractFallback (Json.obj [("output", Json.str "x")])
    ∧ (Flowise.pipe ⟨false⟩ sampleBody
        ⟨200, "application/json", "\x7b\"output\": \"x\"\x7d", []⟩).ret
      = Flowise.extractPlain (Json.obj [("output", Json.str "x")])
    ∧ (Flowise.pipe ⟨true⟩ sampleBody
        ⟨200, "application/json", "\x7b\"answer\": \"hi\"\x7d", []⟩).ret
      = Json.str "hi" :=
  claim8_theorem [("output", Json.str "x")] "application/json"
    "\x7b\"output\": \"x\"\x7d" "\x7b\"answer\": \"hi\"\x7d" [] []
    (by decide) (by decide) (by decide)

/-- Claim C9 (confirmed): a string body handed to the n8n pipe is decoded
as JSON first: a dict result proceeds exactly as if the dict had been
passed, while invalid JSON or a non-dict result returns an error
dictionary without issuing any POST. -/
theorem claim9_theorem (nv : N8n.Valves) (cid : Option String) (nr : N8n.HttpResp)
    (s1 s2 s3 : String) (fields : List (String × Json)) (j : Json)
    (hp1 : Json.parse s1 = some (Json.obj fields))
    (hp2 : Json.parse s2 = none)
    (hp3 : Json.parse s3 = some j) (hj : Json.isObj j = false) :
    N8n.pipe nv cid (Json.str s1) nr = N8n.pipe nv cid (Json.obj fields) nr
    ∧ N8n.pipe nv cid (Json.str s2) nr
        = .ok { ret := errDict N8n.badJsonBodyErr, body := Json.str s2,
                postCount := 0, payload := none }
    ∧ N8n.pipe nv cid (Json.str s3) nr
        = .ok { ret := errDict (N8n.nonDictJsonErr j), body := j,
                postCount := 0, payload := none } := by
  refine ⟨?_, ?_, ?_⟩
  · have e1 : N8n.pipe nv cid (Json.str s1) nr = N8n.validate nv cid (Json.obj fields) nr := by
      simp only [N8n.pipe, hp1]
    rw [e1]
    rfl
  · simp only [N8n.pipe, hp2]
  · simp only [N8n.pipe, hp3]
    cases j <;> simp_all [Json.isObj]

/-- Witness for claim C9 at three concrete string bodies. -/
theorem claim9_witness :
    N8n.pipe ⟨"chatInput", "output"⟩ none
        (Json.str "\x7b\"messages\": [\x7b\"role\": \"user\", \"content\": \"q\"\x7d]\x7d")
        ⟨200, "[]"⟩
      = N8n.pipe ⟨"chatInput", "output"⟩ none
          (Json.obj [("messages", Json.arr
            [Json.obj [("role", Json.str "user"), ("content", Json.str "q")]])])
          ⟨200, "[]"⟩
    ∧ N8n.pipe ⟨"chatInput", "output"⟩ none (Json.str "oops") ⟨200, "[]"⟩
        = .ok { ret := errDict N8n.badJsonBodyErr, body := Json.str "oops",
                postCount := 0, payload := none }
    ∧ N8n.pipe ⟨"chatInput", "output"⟩ none (Json.str "[1, 2]") ⟨200, "[]"⟩
        = .ok { ret := errDict (N8n.nonDictJsonErr (Json.arr [Json.int 1, Json.int 2])),
                body := Json.arr [Json.int 1, Json.int 2],
                postCount := 0, payload := none } :=
  claim9_theorem ⟨"chatInput", "output"⟩ none ⟨200, "[]"⟩
    "\x7b\"messages\": [\x7b\"role\": \"user\", \"content\": \"q\"\x7d]\x7d"
    "oops" "[1, 2]"
    [("messages", Json.arr [Json.obj [("role", Json.str "user"), ("content", Json.str "q")]])]
    (Json.arr [Json.int 1, Json.int 2])
    (by decide) (by decide) (by decide) (by decide)

/-- Claim C10 (confirmed): a Flowise stream carrying only an `end` event
leaves the accumulated content empty, and the call returns the error
dictionary with the conversation body unchanged; in general every call
either leaves the body untouched or appends exactly the truthy content it
returns, and a returned string is never empty. -/
theorem claim10_theorem :
    (Flowise.pipe ⟨true⟩ sampleBody
        ⟨200, "text/event-stream", "", ["data: \x7b\"event\":\"end\"\x7d"]⟩
      = { ret := errDict Flowise.unknownErr, body := sampleBody, posted := true,
          payload := some [("question", Json.str "hi"), ("streaming", Json.bool true)],
          closed := true })
    ∧ (∀ v body resp, (Flowise.pipe v body resp).body = body
        ∨ ∃ c, Json.pyTruthy c = true
            ∧ (Flowise.pipe v body resp).body = appendAssistant body c
            ∧ (Flowise.pipe v body resp).ret = c)
    ∧ (∀ v body resp s0, (Flowise.pipe v body resp).ret = Json.str s0 → s0 ≠ "") := by
  refine ⟨by decide, ?_, ?_⟩
  · intro v body resp
    rcases pipe_shape v body resp with ⟨hb, _⟩ | ⟨c, hc1, hc2, hc3⟩
    · exact Or.inl hb
    · exact Or.inr ⟨c, hc1, hc2, hc3⟩
  · intro v body resp s0 hret
    rcases pipe_shape v body resp with ⟨_, m, hm⟩ | ⟨c, hc1, _, hc3⟩
    · rw [hm] at hret
      exact absurd hret (by simp [errDict])
    · rw [hc3] at hret
      subst hret
      intro h0
      subst h0
      simp [Json.pyTruthy] at hc1

/-- Witness for claim C10: the token stream returning `AB` exercises the
non-empty-string conclusion. -/
theorem claim10_witness : ("AB" : String) ≠ "" :=
  claim10_theorem.2.2 ⟨true⟩ sampleBody ⟨200, "text/event-stream", "", sseLines⟩
    "AB" (by decide)
